import Mathlib

/-!
Shallow embedding of the quiz-adventure engine of Project Codexa
(`tutor_engine-1.py` and `app-1.py`), together with theorems settling the
frozen claims about its specification.

Strings are modelled as `List Char`.  The Python `re` searches used by the
parser are line-anchored multiline patterns; they are embedded here as
explicit scanning functions whose behaviour (including the greedy
`\s*`-with-backtracking semantics of the concrete patterns involved) is
reproduced exactly for the patterns the source uses.  Dates are modelled as
integers counting days; `datetime.utcnow().date()` becomes an explicit
`today` parameter.  The Streamlit `st.session_state` dictionary becomes the
`SessionState` structure.
-/

namespace Codexa

/-- The Python `\s` character class (ASCII): space, tab, newline, carriage
return, vertical tab, form feed. -/
def pyIsSpace (c : Char) : Bool :=
  c = ' ' || c = '\t' || c = '\n' || c = '\r' || c = '\x0b' || c = '\x0c'

/-- The Python `str.strip()` method on the characters of a string. -/
def pyStrip (s : List Char) : List Char :=
  ((s.dropWhile pyIsSpace).reverse.dropWhile pyIsSpace).reverse

/-- Split a text at the first occurrence of `pat`: returns the part before
the occurrence and the part after it.  `none` when `pat` does not occur.
This is the primitive underlying the embedded `re.search`/`in` operations
on literal substrings. -/
def splitFirst (pat : List Char) : List Char → Option (List Char × List Char)
  | [] => if pat = [] then some ([], []) else none
  | c :: rest =>
    if pat.isPrefixOf (c :: rest) then some ([], (c :: rest).drop pat.length)
    else
      match splitFirst pat rest with
      | some (pre, post) => some (c :: pre, post)
      | none => none

/-- Embeds `re.search(opn + "(.*?)" + cls, text, re.S)`: the (shortest) body between
the first occurrence of `opn` and the first occurrence of `cls` after it. -/
def extractBetween (opn cls text : List Char) : Option (List Char) :=
  match splitFirst opn text with
  | none => none
  | some (_, rest) =>
    match splitFirst cls rest with
    | none => none
    | some (body, _) => some body

/-- Fuel-driven worker for `findAllBetween`; the fuel is an upper bound on
the number of matches and is never exhausted at the call site. -/
def findAllBetweenAux (opn cls : List Char) : Nat → List Char → List (List Char)
  | 0, _ => []
  | fuel + 1, text =>
    match splitFirst opn text with
    | none => []
    | some (_, rest) =>
      match splitFirst cls rest with
      | none => []
      | some (body, rest2) => body :: findAllBetweenAux opn cls fuel rest2

/-- Embeds `re.findall(opn + "(.*?)" + cls, text, re.S)`: non-overlapping bodies,
scanned left to right. -/
def findAllBetween (opn cls text : List Char) : List (List Char) :=
  findAllBetweenAux opn cls (text.length + 1) text

/-- The suffixes of the text that begin just after a newline character
(the line starts other than position 0, in order). -/
def afterNewlines : List Char → List (List Char)
  | [] => []
  | c :: rest =>
    if c = '\n' then rest :: afterNewlines rest else afterNewlines rest

/-- All suffixes of the text at which the multiline anchor `^` matches. -/
def lineSuffixes (t : List Char) : List (List Char) := t :: afterNewlines t

/-- The `\s*(.+)\s*$` tail of the patterns `^\s*PAT\s*(.+)\s*$` (multiline):
given the text following `PAT`, produce the captured group of the first
(backtracking-greedy) match, or `none` when no match exists from here.
The greedy `\s*` may cross newlines; when everything that follows is
whitespace, backtracking lets `.+` consume a single non-newline whitespace
character if one exists. -/
def matchTailGroup (rest : List Char) : Option (List Char) :=
  let v := rest.dropWhile pyIsSpace
  if v ≠ [] then some (v.takeWhile (fun c => c ≠ '\n'))
  else
    match rest.reverse.dropWhile (fun c => c = '\n') with
    | [] => none
    | c :: _ => some [c]

/-- Attempt the pattern `^\s*PAT\s*(.+)\s*$` at one line start. -/
def attemptPrefixGroup (pat ls : List Char) : Option (List Char) :=
  let u := ls.dropWhile pyIsSpace
  if pat.isPrefixOf u then matchTailGroup (u.drop pat.length) else none

/-- Embeds `re.search` of the multiline pattern `^\s*PAT\s*(.+)\s*$`: the captured group
of the leftmost match, scanning the line starts in order. -/
def searchPrefixGroup (pat t : List Char) : Option (List Char) :=
  (lineSuffixes t).findSome? (attemptPrefixGroup pat)

/-- Attempt the pattern `^\s*\[CORRECT:\s*([A-C])\s*\]` at one line start. -/
def attemptCorrect (ls : List Char) : Option Char :=
  let u := ls.dropWhile pyIsSpace
  if "[CORRECT:".data.isPrefixOf u then
    match (u.drop 9).dropWhile pyIsSpace with
    | c :: r2 =>
      if c = 'A' || c = 'B' || c = 'C' then
        if (r2.dropWhile pyIsSpace).head? = some ']' then some c else none
      else none
    | [] => none
  else none

/-- Embeds `re.search` of the multiline pattern `^\s*\[CORRECT:\s*([A-C])\s*\]`. -/
def searchCorrect (t : List Char) : Option Char :=
  (lineSuffixes t).findSome? attemptCorrect

/-- A parsed question record as produced by `parse_quiz_block` (the Python
dict `{question, options, answer, explanation, code}`). -/
structure QuestionItem where
  question : List Char
  options : List (List Char)
  answer : List Char
  explanation : List Char
  code : List Char
deriving DecidableEq, Repr

/-- The `question` field extracted from one question sub-block:
`q_match.group(1).strip() if q_match else ""`. -/
def questionOf (qb : List Char) : List Char :=
  match searchPrefixGroup "Question:".data qb with
  | some g => pyStrip g
  | none => []

/-- One lettered option extracted from a question sub-block (`key` is the
literal `"[A]"`, `"[B]"` or `"[C]"`):
`om.group(1).strip() if om else ""`. -/
def optionOf (key : List Char) (qb : List Char) : List Char :=
  match searchPrefixGroup key qb with
  | some g => pyStrip g
  | none => []

/-- The correctness letter of a sub-block:
`corr_match.group(1) if corr_match else "A"`. -/
def correctKeyOf (qb : List Char) : Char :=
  match searchCorrect qb with
  | some c => c
  | none => 'A'

/-- The per-sub-block body of the `parse_quiz_block` loop: `none` when the
block is dropped (`if not question or not all(options_map.values()):
continue`), otherwise the appended record. -/
def parseBlock (qb : List Char) : Option QuestionItem :=
  let question := questionOf qb
  let oa := optionOf "[A]".data qb
  let ob := optionOf "[B]".data qb
  let oc := optionOf "[C]".data qb
  let correct_key := correctKeyOf qb
  if question = [] ∨ oa = [] ∨ ob = [] ∨ oc = [] then none
  else some
    { question := question
      options := [oa, ob, oc]
      answer := if correct_key = 'A' then oa else if correct_key = 'B' then ob else oc
      explanation := []
      code := [] }

/-- Embeds `tutor_engine.parse_quiz_block`. -/
def parse_quiz_block (text : List Char) : List QuestionItem :=
  if text = [] then []
  else
    match extractBetween "[QUIZ START]".data "[QUIZ END]".data text with
    | none => []
    | some body =>
      (findAllBetween "[QUESTION]".data "[/QUESTION]".data body).filterMap parseBlock

/-- The per-sub-block checks of `validate_quiz_block`: a `Question:` line,
all three option lines and a correctness marker must be present. -/
def validBlock (qb : List Char) : Bool :=
  (searchPrefixGroup "Question:".data qb).isSome &&
  (searchPrefixGroup "[A]".data qb).isSome &&
  (searchPrefixGroup "[B]".data qb).isSome &&
  (searchPrefixGroup "[C]".data qb).isSome &&
  (searchCorrect qb).isSome

/-- Embeds `tutor_engine.validate_quiz_block`. -/
def validate_quiz_block (text : List Char) : Bool :=
  if text = [] || (splitFirst "[QUIZ START]".data text).isNone
      || (splitFirst "[QUIZ END]".data text).isNone then false
  else
    match extractBetween "[QUIZ START]".data "[QUIZ END]".data text with
    | none => false
    | some body =>
      let q_blocks := findAllBetween "[QUESTION]".data "[/QUESTION]".data body
      if q_blocks.length ≠ 5 then false
      else q_blocks.all validBlock

/-- The `correct_index` resolution of the quiz tab answer handler in
`app.py`: `next((j for j, o in enumerate(q['options']) if o ==
q.get('answer')), -1)` (the record carries no `'correct'` key, so the
`q.get('correct')` branch yields `None`). -/
def resolve_correct_index (q : QuestionItem) : Int :=
  match q.options.findIdx? (fun o => o = q.answer) with
  | some j => (j : Int)
  | none => -1

/-! ## Gamification constants of `app.py` -/

/-- The table `RANKS`: ascending `(threshold, name)` pairs. -/
def RANKS : List (Nat × String) :=
  [(0, "Rookie"), (100, "Apprentice"), (300, "Scholar"),
   (700, "Mentor"), (1200, "Master"), (2000, "Grandmaster")]

/-- The table `LEVEL_XP`: cumulative XP thresholds. -/
def LEVEL_XP : List Nat :=
  [0, 100, 250, 450, 700, 1000, 1400, 1850, 2350, 2900, 3500, 4200]

/-- Embeds `compute_rank`: last rank of the table whose threshold the XP reaches. -/
def compute_rank (xp : Nat) : String :=
  RANKS.foldl (fun r p => if xp ≥ p.1 then p.2 else r) "Rookie"

/-- Embeds `compute_level`: `min` of the last reached threshold index + 1 and the
table length. -/
def compute_level (xp : Nat) : Nat :=
  min (LEVEL_XP.enum.foldl (fun lvl p => if xp ≥ p.2 then p.1 + 1 else lvl) 1)
    LEVEL_XP.length

/-- One history entry (the dict appended to `st.session_state.history`);
the date is a day number. -/
structure HistEntry where
  date : Int
  subject : String
  chapter : String
  score : Nat
  total : Nat
  xp : Nat
deriving DecidableEq, Repr

/-- Embeds `st.session_state.quests_daily_progress`: the counter entries of the
dict together with its `reset_date` value. -/
structure DailyQuests where
  counters : List (String × Nat)
  reset_date : Int
deriving DecidableEq, Repr

/-- Embeds `st.session_state.quests_weekly_progress`: the counter entries of the
dict together with its `week_start` value (`none` models a missing/`None`
entry, as tested by `update_quests`). -/
structure WeeklyQuests where
  counters : List (String × Nat)
  week_start : Option Int
deriving DecidableEq, Repr

/-- Embeds `dict.get(key, 0)` on a counter table. -/
def getD : List (String × Nat) → String → Nat
  | [], _ => 0
  | (k', v) :: rest, k => if k = k' then v else getD rest k

/-- Embeds `dict[key] = v` on a counter table. -/
def setA : List (String × Nat) → String → Nat → List (String × Nat)
  | [], k, v => [(k, v)]
  | (k', v') :: rest, k, v =>
    if k' = k then (k, v) :: rest else (k', v') :: setA rest k v

/-- The fields of `st.session_state` that the engine reads or writes
(cf. `init_state`).  `quiz_map_anim` keeps the Python string enum. -/
structure SessionState where
  subject : String
  chapter : String
  quiz_score : Nat
  quiz_total : Nat
  quiz_count : Nat
  progress : List ((String × String) × Nat × Nat)
  game_credits : Nat
  total_xp : Nat
  coins : Nat
  sudoku_wins : Nat
  sudoku_games_played : Nat
  sudoku_started : Bool
  history : List HistEntry
  daily_streak : Nat
  last_active_date : Option Int
  correct_streak : Nat
  correct_total : Nat
  last_quiz_pct : Rat
  quests_daily_progress : DailyQuests
  quests_weekly_progress : WeeklyQuests
  unlocked_ach : List String
  quiz_map_position : Int
  quiz_map_total_questions : Nat
  quiz_map_correct : Nat
  quiz_map_qindex : Nat
  quiz_map_anim : String
  quiz_map_done : Bool
deriving DecidableEq, Repr

/-- Embeds `touch_daily_streak`, with `datetime.utcnow().date()` as `today`. -/
def touch_daily_streak (today : Int) (ss : SessionState) : SessionState :=
  let ss :=
    match ss.last_active_date with
    | none => { ss with daily_streak := 1 }
    | some last =>
      let diff := today - last
      if diff = 1 then { ss with daily_streak := ss.daily_streak + 1 }
      else if diff > 1 then { ss with daily_streak := 1 }
      else ss
  { ss with last_active_date := some today }

/-- Embeds `update_quests(progress_key, inc, is_80plus)`. -/
def update_quests (today : Int) (progress_key : String) (inc : Nat)
    (is_80plus : Bool) (ss : SessionState) : SessionState :=
  let d0 :=
    if ss.quests_daily_progress.reset_date ≠ today then
      DailyQuests.mk [("daily_quizzes", 0), ("daily_correct", 0)] today
    else ss.quests_daily_progress
  let d1 := { d0 with
    counters := setA d0.counters progress_key (getD d0.counters progress_key + inc) }
  let w0 :=
    match ss.quests_weekly_progress.week_start with
    | none => WeeklyQuests.mk [("weekly_quizzes", 0), ("weekly_80plus", 0)] (some today)
    | some w =>
      if today - w ≥ 7 then
        WeeklyQuests.mk [("weekly_quizzes", 0), ("weekly_80plus", 0)] (some today)
      else ss.quests_weekly_progress
  let w1 :=
    if progress_key = "daily_quizzes" then
      let wq := { w0 with
        counters := setA w0.counters "weekly_quizzes" (getD w0.counters "weekly_quizzes" + inc) }
      if is_80plus then
        { wq with
          counters := setA wq.counters "weekly_80plus" (getD wq.counters "weekly_80plus" + 1) }
      else wq
    else w0
  { ss with quests_daily_progress := d1, quests_weekly_progress := w1 }

/-- One quest definition of the `DAILY_QUESTS`/`WEEKLY_QUESTS` catalogs. -/
structure QuestDef where
  id : String
  name : String
  desc : String
  target : Nat
  key : String
  reward_xp : Nat
  reward_coins : Nat
deriving DecidableEq, Repr

def DAILY_QUESTS : List QuestDef :=
  [⟨"q_daily_quiz", "Daily Quizzer", "Complete 1 quiz today", 1, "daily_quizzes", 20, 5⟩,
   ⟨"q_daily_correct", "Sharp Mind", "Get 5 correct answers today", 5, "daily_correct", 20, 5⟩]

def WEEKLY_QUESTS : List QuestDef :=
  [⟨"q_weekly_quizzes", "Weekly Warrior", "Complete 10 quizzes this week", 10, "weekly_quizzes", 100, 25⟩,
   ⟨"q_weekly_accuracy", "Precision", "Achieve 80%+ in 3 quizzes this week", 3, "weekly_80plus", 100, 25⟩]

/-- Embeds `grant_quest_rewards(completed_ids)`. -/
def grant_quest_rewards (completed_ids : List String) (ss : SessionState) :
    SessionState :=
  (DAILY_QUESTS ++ WEEKLY_QUESTS).foldl
    (fun ss q =>
      if q.id ∈ completed_ids then
        { ss with total_xp := ss.total_xp + q.reward_xp,
                  coins := ss.coins + q.reward_coins }
      else ss)
    ss

/-- One achievement of the `ACHIEVEMENTS` catalog: title, description,
condition over the session state, emoji and XP reward. -/
structure Ach where
  title : String
  desc : String
  cond : SessionState → Bool
  emoji : String
  xp : Nat

def ACHIEVEMENTS : List Ach :=
  [⟨"First Steps", "Complete 1 quiz", fun ss => decide (ss.quiz_count ≥ 1), "🥉", 25⟩,
   ⟨"Warming Up", "Reach 5 quizzes", fun ss => decide (ss.quiz_count ≥ 5), "🥈", 50⟩,
   ⟨"Quiz Pro", "Reach 20 quizzes", fun ss => decide (ss.quiz_count ≥ 20), "🥇", 100⟩,
   ⟨"Hot Streak", "Daily streak 5+", fun ss => decide (ss.daily_streak ≥ 5), "🔥", 50⟩,
   ⟨"Flawless", "Score 100% in a quiz", fun ss => decide (ss.last_quiz_pct = 100), "💯", 50⟩,
   ⟨"Marathon", "Answer 50 correct in total", fun ss => decide (ss.correct_total ≥ 50), "🏅", 75⟩]

/-- The loop body of `check_achievements`: Python stores the per-achievement
flag under the key `"ach_" + title`; the set of true flags is modelled by
the `unlocked_ach` list. -/
def achStep (p : SessionState × List String) (a : Ach) :
    SessionState × List String :=
  if a.title ∉ p.1.unlocked_ach ∧ a.cond p.1 = true then
    ({ p.1 with unlocked_ach := a.title :: p.1.unlocked_ach,
                total_xp := p.1.total_xp + a.xp },
     p.2 ++ [a.emoji ++ " " ++ a.title ++ " (+" ++ toString a.xp ++ " XP)"])
  else p

/-- Embeds `check_achievements()`: returns the updated state and the `newly` list. -/
def check_achievements (ss : SessionState) : SessionState × List String :=
  ACHIEVEMENTS.foldl achStep (ss, [])

/-- Embeds `apply_answer_and_move(is_correct, qidx)`. -/
def apply_answer_and_move (today : Int) (is_correct : Bool) (qidx : Nat)
    (ss : SessionState) : SessionState :=
  let ss :=
    if is_correct then
      let ss := { ss with
        quiz_map_position :=
          min (ss.quiz_map_position + 1) ((ss.quiz_map_total_questions : Int) + 1),
        quiz_map_correct := ss.quiz_map_correct + 1,
        quiz_map_anim := "fwd",
        total_xp := ss.total_xp + 5,
        correct_streak := ss.correct_streak + 1,
        correct_total := ss.correct_total + 1 }
      update_quests today "daily_correct" 1 false ss
    else
      { ss with
        quiz_map_position := max 0 (ss.quiz_map_position - 1),
        quiz_map_anim := "back",
        correct_streak := 0 }
  { ss with quiz_map_qindex := qidx + 1 }

/-- The quiz tab drives one `apply_answer_and_move` per submission, always
passing the current `quiz_map_qindex` as `qidx`. -/
def run_answers (today : Int) (ss : SessionState) : List Bool → SessionState
  | [] => ss
  | b :: rest =>
    run_answers today (apply_answer_and_move today b ss.quiz_map_qindex ss) rest

/-- Embeds `ss.progress.setdefault(subj, {}).setdefault(chap, {"score":0,"total":0})`
followed by `+= ds` on the score and `+= dt` on the total. -/
def progUpdate : List ((String × String) × Nat × Nat) → String × String →
    Nat → Nat → List ((String × String) × Nat × Nat)
  | [], k, ds, dt => [(k, ds, dt)]
  | (k', s', t') :: rest, k, ds, dt =>
    if k' = k then (k', s' + ds, t' + dt) :: rest
    else (k', s', t') :: progUpdate rest k ds dt

/-- The Python zero-decimal float formatting of the accuracy percentage in
the gate messages, modelled as rounding the (exactly computed) rational to
the nearest integer. -/
def fmtPct (q : Rat) : String := toString (round q : Int)

/-- Embeds `check_completion_gate()`: returns the `(passed, message)` pair and the
updated state. -/
def check_completion_gate (today : Int) (ss : SessionState) :
    (Bool × String) × SessionState :=
  if ss.quiz_map_qindex ≥ ss.quiz_map_total_questions ∧ ss.quiz_map_done = false then
    let accuracy : Rat := 100 * ss.quiz_map_correct / max 1 ss.quiz_map_total_questions
    let ss := { ss with last_quiz_pct := accuracy }
    let ss := update_quests today "daily_quizzes" 1 (decide (accuracy ≥ 80)) ss
    if accuracy ≥ 80 then
      let ss := { ss with
        quiz_map_done := true,
        quiz_map_anim := "celebrate",
        total_xp := ss.total_xp + 25,
        game_credits := ss.game_credits + 1,
        coins := ss.coins + 5,
        quiz_score := ss.quiz_score + ss.quiz_map_correct,
        quiz_total := ss.quiz_total + ss.quiz_map_total_questions,
        quiz_count := ss.quiz_count + 1,
        progress := progUpdate ss.progress (ss.subject, ss.chapter)
          ss.quiz_map_correct ss.quiz_map_total_questions,
        history := ss.history ++
          [⟨today, ss.subject, ss.chapter, ss.quiz_map_correct,
            ss.quiz_map_total_questions, 25 + 5 * ss.quiz_map_correct⟩] }
      let res := check_achievements ss
      ((true, "🎉 Great job! " ++ fmtPct accuracy ++
        "% achieved. +25 XP, +1 Credit, +5 Coins"), res.1)
    else
      let ss := { ss with
        quiz_score := ss.quiz_score + ss.quiz_map_correct,
        quiz_total := ss.quiz_total + ss.quiz_map_total_questions,
        quiz_count := ss.quiz_count + 1,
        progress := progUpdate ss.progress (ss.subject, ss.chapter)
          ss.quiz_map_correct ss.quiz_map_total_questions,
        history := ss.history ++
          [⟨today, ss.subject, ss.chapter, ss.quiz_map_correct,
            ss.quiz_map_total_questions, 5 * ss.quiz_map_correct⟩] }
      let res := check_achievements ss
      ((false, "📚 You scored " ++ fmtPct accuracy ++
        "%. Need at least 80% to move forward. Retry!"), res.1)
  else ((false, ""), ss)

/-- Embeds `format_rank_level()`. -/
def format_rank_level (ss : SessionState) : String × Nat :=
  (compute_rank ss.total_xp, compute_level ss.total_xp)

/-- The Sudoku win settlement of the Games tab (`+10 XP & credit refunded`
branch of the Check button). -/
def sudoku_win_settle (ss : SessionState) : SessionState :=
  { ss with
    total_xp := ss.total_xp + 10,
    game_credits := ss.game_credits + 1,
    sudoku_wins := ss.sudoku_wins + 1,
    sudoku_started := false,
    sudoku_games_played := ss.sudoku_games_played + 1 }

/-- The session state produced by `init_state` (subject/chapter chosen in
the sidebar; both dates taken as day 0). -/
def exampleState : SessionState :=
  { subject := "Physics"
    chapter := "Light - Reflection and Refraction"
    quiz_score := 0, quiz_total := 0, quiz_count := 0, progress := []
    game_credits := 3, total_xp := 0, coins := 0
    sudoku_wins := 0, sudoku_games_played := 0, sudoku_started := false
    history := [], daily_streak := 0, last_active_date := none
    correct_streak := 0, correct_total := 0, last_quiz_pct := 0
    quests_daily_progress := ⟨[("daily_quizzes", 0), ("daily_correct", 0)], 0⟩
    quests_weekly_progress := ⟨[("weekly_quizzes", 0), ("weekly_80plus", 0)], some 0⟩
    unlocked_ach := []
    quiz_map_position := 0, quiz_map_total_questions := 0, quiz_map_correct := 0
    quiz_map_qindex := 0, quiz_map_anim := "idle", quiz_map_done := false }

/-! ## Preservation lemmas -/

@[simp] theorem update_quests_subject (t : Int) (k : String) (i : Nat) (hi : Bool)
    (ss : SessionState) : (update_quests t k i hi ss).subject = ss.subject := rfl

@[simp] theorem update_quests_chapter (t : Int) (k : String) (i : Nat) (hi : Bool)
    (ss : SessionState) : (update_quests t k i hi ss).chapter = ss.chapter := rfl

@[simp] theorem update_quests_total_xp (t : Int) (k : String) (i : Nat) (hi : Bool)
    (ss : SessionState) : (update_quests t k i hi ss).total_xp = ss.total_xp := rfl

@[simp] theorem update_quests_game_credits (t : Int) (k : String) (i : Nat) (hi : Bool)
    (ss : SessionState) : (update_quests t k i hi ss).game_credits = ss.game_credits := rfl

@[simp] theorem update_quests_coins (t : Int) (k : String) (i : Nat) (hi : Bool)
    (ss : SessionState) : (update_quests t k i hi ss).coins = ss.coins := rfl

@[simp] theorem update_quests_history (t : Int) (k : String) (i : Nat) (hi : Bool)
    (ss : SessionState) : (update_quests t k i hi ss).history = ss.history := rfl

@[simp] theorem update_quests_quiz_score (t : Int) (k : String) (i : Nat) (hi : Bool)
    (ss : SessionState) : (update_quests t k i hi ss).quiz_score = ss.quiz_score := rfl

@[simp] theorem update_quests_quiz_total (t : Int) (k : String) (i : Nat) (hi : Bool)
    (ss : SessionState) : (update_quests t k i hi ss).quiz_total = ss.quiz_total := rfl

@[simp] theorem update_quests_quiz_count (t : Int) (k : String) (i : Nat) (hi : Bool)
    (ss : SessionState) : (update_quests t k i hi ss).quiz_count = ss.quiz_count := rfl

@[simp] theorem update_quests_progress (t : Int) (k : String) (i : Nat) (hi : Bool)
    (ss : SessionState) : (update_quests t k i hi ss).progress = ss.progress := rfl

@[simp] theorem update_quests_last_quiz_pct (t : Int) (k : String) (i : Nat) (hi : Bool)
    (ss : SessionState) : (update_quests t k i hi ss).last_quiz_pct = ss.last_quiz_pct := rfl

@[simp] theorem update_quests_daily_streak (t : Int) (k : String) (i : Nat) (hi : Bool)
    (ss : SessionState) : (update_quests t k i hi ss).daily_streak = ss.daily_streak := rfl

@[simp] theorem update_quests_correct_total (t : Int) (k : String) (i : Nat) (hi : Bool)
    (ss : SessionState) : (update_quests t k i hi ss).correct_total = ss.correct_total := rfl

@[simp] theorem update_quests_unlocked_ach (t : Int) (k : String) (i : Nat) (hi : Bool)
    (ss : SessionState) : (update_quests t k i hi ss).unlocked_ach = ss.unlocked_ach := rfl

@[simp] theorem update_quests_quiz_map_position (t : Int) (k : String) (i : Nat) (hi : Bool)
    (ss : SessionState) :
    (update_quests t k i hi ss).quiz_map_position = ss.quiz_map_position := rfl

@[simp] theorem update_quests_quiz_map_total_questions (t : Int) (k : String) (i : Nat)
    (hi : Bool) (ss : SessionState) :
    (update_quests t k i hi ss).quiz_map_total_questions = ss.quiz_map_total_questions := rfl

@[simp] theorem update_quests_quiz_map_correct (t : Int) (k : String) (i : Nat) (hi : Bool)
    (ss : SessionState) :
    (update_quests t k i hi ss).quiz_map_correct = ss.quiz_map_correct := rfl

@[simp] theorem update_quests_quiz_map_qindex (t : Int) (k : String) (i : Nat) (hi : Bool)
    (ss : SessionState) :
    (update_quests t k i hi ss).quiz_map_qindex = ss.quiz_map_qindex := rfl

@[simp] theorem update_quests_quiz_map_done (t : Int) (k : String) (i : Nat) (hi : Bool)
    (ss : SessionState) : (update_quests t k i hi ss).quiz_map_done = ss.quiz_map_done := rfl

@[simp] theorem achStep_game_credits (p : SessionState × List String) (a : Ach) :
    ((achStep p a).1).game_credits = p.1.game_credits := by
  unfold achStep; split <;> rfl

@[simp] theorem achStep_coins (p : SessionState × List String) (a : Ach) :
    ((achStep p a).1).coins = p.1.coins := by
  unfold achStep; split <;> rfl

@[simp] theorem achStep_history (p : SessionState × List String) (a : Ach) :
    ((achStep p a).1).history = p.1.history := by
  unfold achStep; split <;> rfl

@[simp] theorem achStep_quiz_map_done (p : SessionState × List String) (a : Ach) :
    ((achStep p a).1).quiz_map_done = p.1.quiz_map_done := by
  unfold achStep; split <;> rfl

@[simp] theorem achStep_last_quiz_pct (p : SessionState × List String) (a : Ach) :
    ((achStep p a).1).last_quiz_pct = p.1.last_quiz_pct := by
  unfold achStep; split <;> rfl

@[simp] theorem achStep_quiz_count (p : SessionState × List String) (a : Ach) :
    ((achStep p a).1).quiz_count = p.1.quiz_count := by
  unfold achStep; split <;> rfl

@[simp] theorem achStep_daily_streak (p : SessionState × List String) (a : Ach) :
    ((achStep p a).1).daily_streak = p.1.daily_streak := by
  unfold achStep; split <;> rfl

@[simp] theorem achStep_correct_total (p : SessionState × List String) (a : Ach) :
    ((achStep p a).1).correct_total = p.1.correct_total := by
  unfold achStep; split <;> rfl

@[simp] theorem achStep_quiz_map_qindex (p : SessionState × List String) (a : Ach) :
    ((achStep p a).1).quiz_map_qindex = p.1.quiz_map_qindex := by
  unfold achStep; split <;> rfl

@[simp] theorem achStep_quiz_map_total_questions (p : SessionState × List String) (a : Ach) :
    ((achStep p a).1).quiz_map_total_questions = p.1.quiz_map_total_questions := by
  unfold achStep; split <;> rfl

@[simp] theorem achStep_quiz_map_correct (p : SessionState × List String) (a : Ach) :
    ((achStep p a).1).quiz_map_correct = p.1.quiz_map_correct := by
  unfold achStep; split <;> rfl

theorem achStep_total_xp_le (p : SessionState × List String) (a : Ach) :
    p.1.total_xp ≤ ((achStep p a).1).total_xp := by
  unfold achStep; split
  · exact Nat.le_add_right _ _
  · exact Nat.le_refl _

theorem achStep_unlocked_mono (p : SessionState × List String) (a : Ach) (t : String)
    (h : t ∈ p.1.unlocked_ach) : t ∈ ((achStep p a).1).unlocked_ach := by
  unfold achStep; split
  · exact List.mem_cons_of_mem _ h
  · exact h

theorem achFold_game_credits (l : List Ach) (p : SessionState × List String) :
    ((l.foldl achStep p).1).game_credits = p.1.game_credits := by
  induction l generalizing p with
  | nil => rfl
  | cons a l ih => rw [List.foldl_cons, ih, achStep_game_credits]

theorem achFold_coins (l : List Ach) (p : SessionState × List String) :
    ((l.foldl achStep p).1).coins = p.1.coins := by
  induction l generalizing p with
  | nil => rfl
  | cons a l ih => rw [List.foldl_cons, ih, achStep_coins]

theorem achFold_history (l : List Ach) (p : SessionState × List String) :
    ((l.foldl achStep p).1).history = p.1.history := by
  induction l generalizing p with
  | nil => rfl
  | cons a l ih => rw [List.foldl_cons, ih, achStep_history]

theorem achFold_quiz_map_done (l : List Ach) (p : SessionState × List String) :
    ((l.foldl achStep p).1).quiz_map_done = p.1.quiz_map_done := by
  induction l generalizing p with
  | nil => rfl
  | cons a l ih => rw [List.foldl_cons, ih, achStep_quiz_map_done]

theorem achFold_last_quiz_pct (l : List Ach) (p : SessionState × List String) :
    ((l.foldl achStep p).1).last_quiz_pct = p.1.last_quiz_pct := by
  induction l generalizing p with
  | nil => rfl
  | cons a l ih => rw [List.foldl_cons, ih, achStep_last_quiz_pct]

theorem achFold_quiz_count (l : List Ach) (p : SessionState × List String) :
    ((l.foldl achStep p).1).quiz_count = p.1.quiz_count := by
  induction l generalizing p with
  | nil => rfl
  | cons a l ih => rw [List.foldl_cons, ih, achStep_quiz_count]

theorem achFold_daily_streak (l : List Ach) (p : SessionState × List String) :
    ((l.foldl achStep p).1).daily_streak = p.1.daily_streak := by
  induction l generalizing p with
  | nil => rfl
  | cons a l ih => rw [List.foldl_cons, ih, achStep_daily_streak]

theorem achFold_correct_total (l : List Ach) (p : SessionState × List String) :
    ((l.foldl achStep p).1).correct_total = p.1.correct_total := by
  induction l generalizing p with
  | nil => rfl
  | cons a l ih => rw [List.foldl_cons, ih, achStep_correct_total]

theorem achFold_quiz_map_qindex (l : List Ach) (p : SessionState × List String) :
    ((l.foldl achStep p).1).quiz_map_qindex = p.1.quiz_map_qindex := by
  induction l generalizing p with
  | nil => rfl
  | cons a l ih => rw [List.foldl_cons, ih, achStep_quiz_map_qindex]

theorem achFold_quiz_map_total_questions (l : List Ach) (p : SessionState × List String) :
    ((l.foldl achStep p).1).quiz_map_total_questions = p.1.quiz_map_total_questions := by
  induction l generalizing p with
  | nil => rfl
  | cons a l ih => rw [List.foldl_cons, ih, achStep_quiz_map_total_questions]

theorem achFold_quiz_map_correct (l : List Ach) (p : SessionState × List String) :
    ((l.foldl achStep p).1).quiz_map_correct = p.1.quiz_map_correct := by
  induction l generalizing p with
  | nil => rfl
  | cons a l ih => rw [List.foldl_cons, ih, achStep_quiz_map_correct]

theorem achFold_total_xp_le (l : List Ach) (p : SessionState × List String) :
    p.1.total_xp ≤ ((l.foldl achStep p).1).total_xp := by
  induction l generalizing p with
  | nil => exact Nat.le_refl _
  | cons a l ih =>
    rw [List.foldl_cons]
    exact Nat.le_trans (achStep_total_xp_le p a) (ih (achStep p a))

theorem achFold_unlocked_mono (l : List Ach) (p : SessionState × List String) (t : String)
    (h : t ∈ p.1.unlocked_ach) : t ∈ ((l.foldl achStep p).1).unlocked_ach := by
  induction l generalizing p with
  | nil => exact h
  | cons a l ih =>
    rw [List.foldl_cons]
    exact ih (achStep p a) (achStep_unlocked_mono p a t h)

@[simp] theorem check_achievements_game_credits (ss : SessionState) :
    (check_achievements ss).1.game_credits = ss.game_credits :=
  achFold_game_credits ACHIEVEMENTS (ss, [])

@[simp] theorem check_achievements_coins (ss : SessionState) :
    (check_achievements ss).1.coins = ss.coins :=
  achFold_coins ACHIEVEMENTS (ss, [])

@[simp] theorem check_achievements_history (ss : SessionState) :
    (check_achievements ss).1.history = ss.history :=
  achFold_history ACHIEVEMENTS (ss, [])

@[simp] theorem check_achievements_quiz_map_done (ss : SessionState) :
    (check_achievements ss).1.quiz_map_done = ss.quiz_map_done :=
  achFold_quiz_map_done ACHIEVEMENTS (ss, [])

@[simp] theorem check_achievements_last_quiz_pct (ss : SessionState) :
    (check_achievements ss).1.last_quiz_pct = ss.last_quiz_pct :=
  achFold_last_quiz_pct ACHIEVEMENTS (ss, [])

@[simp] theorem check_achievements_quiz_count (ss : SessionState) :
    (check_achievements ss).1.quiz_count = ss.quiz_count :=
  achFold_quiz_count ACHIEVEMENTS (ss, [])

@[simp] theorem check_achievements_quiz_map_qindex (ss : SessionState) :
    (check_achievements ss).1.quiz_map_qindex = ss.quiz_map_qindex :=
  achFold_quiz_map_qindex ACHIEVEMENTS (ss, [])

@[simp] theorem check_achievements_quiz_map_total_questions (ss : SessionState) :
    (check_achievements ss).1.quiz_map_total_questions = ss.quiz_map_total_questions :=
  achFold_quiz_map_total_questions ACHIEVEMENTS (ss, [])

@[simp] theorem check_achievements_quiz_map_correct (ss : SessionState) :
    (check_achievements ss).1.quiz_map_correct = ss.quiz_map_correct :=
  achFold_quiz_map_correct ACHIEVEMENTS (ss, [])

theorem check_achievements_total_xp_le (ss : SessionState) :
    ss.total_xp ≤ (check_achievements ss).1.total_xp :=
  achFold_total_xp_le ACHIEVEMENTS (ss, [])

/-- An achievement condition that only reads the profile fields the
catalog predicates mention (`quiz_count`, `daily_streak`, `last_quiz_pct`,
`correct_total`) — i.e. fields `check_achievements` never writes. -/
def CondStable (c : SessionState → Bool) : Prop :=
  ∀ s₁ s₂ : SessionState, s₁.quiz_count = s₂.quiz_count →
    s₁.daily_streak = s₂.daily_streak → s₁.last_quiz_pct = s₂.last_quiz_pct →
    s₁.correct_total = s₂.correct_total → c s₁ = c s₂

theorem ACHIEVEMENTS_condStable : ∀ a ∈ ACHIEVEMENTS, CondStable a.cond := by
  intro a ha
  simp only [ACHIEVEMENTS, List.mem_cons, List.not_mem_nil, or_false] at ha
  rcases ha with h | h | h | h | h | h <;> subst h <;>
    (intro s₁ s₂ h1 h2 h3 h4; simp only [h1, h2, h3, h4])

theorem achFold_cond_fixed (l : List Ach) (p : SessionState × List String)
    (a : Ach) (hst : CondStable a.cond) :
    a.cond ((l.foldl achStep p).1) = a.cond p.1 :=
  hst _ _ (achFold_quiz_count l p) (achFold_daily_streak l p)
    (achFold_last_quiz_pct l p) (achFold_correct_total l p)

/-- After the fold has processed the whole catalog, any catalog entry whose
condition holds on the resulting state is unlocked in it. -/
theorem achFold_post (l : List Ach) (hst : ∀ a ∈ l, CondStable a.cond) :
    ∀ (p : SessionState × List String), ∀ a ∈ l,
      a.cond ((l.foldl achStep p).1) = true →
      a.title ∈ ((l.foldl achStep p).1).unlocked_ach := by
  induction l with
  | nil => intro p a ha; exact absurd ha (List.not_mem_nil a)
  | cons b l ih =>
    intro p a ha hcond
    rw [List.foldl_cons] at hcond ⊢
    rcases List.mem_cons.mp ha with rfl | ha'
    · by_cases hguard : a.title ∉ (achStep p a).1.unlocked_ach ∧ a.cond (achStep p a).1 = true
      · -- `achStep p a` either unlocked `a` or left it unlocked already;
        -- show it cannot have left it locked with its condition true.
        exfalso
        have hfix : a.cond (achStep p a).1 = a.cond p.1 :=
          hst a (List.mem_cons_self a l) _ _ (achStep_quiz_count p a)
            (achStep_daily_streak p a) (achStep_last_quiz_pct p a)
            (achStep_correct_total p a)
        have hc : a.cond p.1 = true := hfix ▸ hguard.2
        have : a.title ∈ (achStep p a).1.unlocked_ach := by
          unfold achStep
          rw [if_pos ⟨fun hmem => hguard.1 (achStep_unlocked_mono p a _ hmem), hc⟩]
          exact List.mem_cons_self _ _
        exact hguard.1 this
      · push_neg at hguard
        by_cases hmem : a.title ∈ (achStep p a).1.unlocked_ach
        · exact achFold_unlocked_mono l _ _ hmem
        · have hcf : a.cond (achStep p a).1 = false :=
            Bool.eq_false_iff.mpr (hguard hmem)
          have hfix := achFold_cond_fixed l (achStep p a) a
            (hst a (List.mem_cons_self a l))
          rw [hfix, hcf] at hcond
          exact absurd hcond (by simp)
    · exact ih (fun a ha => hst a (List.mem_cons_of_mem b ha)) (achStep p b) a ha' hcond

/-- When every condition that holds is already unlocked, the fold is a
no-op and reports no newly unlocked achievement. -/
theorem achFold_noop : ∀ (l : List Ach) (s : SessionState) (n : List String),
    (∀ a ∈ l, a.cond s = true → a.title ∈ s.unlocked_ach) →
    l.foldl achStep (s, n) = (s, n) := by
  intro l
  induction l with
  | nil => intro s n _; rfl
  | cons a l ih =>
    intro s n h
    have hstep : achStep (s, n) a = (s, n) := by
      unfold achStep
      rw [if_neg]
      rintro ⟨hni, hc⟩
      exact hni (h a (List.mem_cons_self a l) hc)
    rw [List.foldl_cons, hstep]
    exact ih s n (fun a ha hc => h a (List.mem_cons_of_mem _ ha) hc)

theorem getD_setA (m : List (String × Nat)) (k k' : String) (v : Nat) :
    getD (setA m k v) k' = if k' = k then v else getD m k' := by
  induction m with
  | nil => simp [setA, getD]
  | cons p rest ih =>
    obtain ⟨k₀, v₀⟩ := p
    by_cases hk : k₀ = k
    · subst hk
      simp only [setA, if_pos rfl, getD]
      by_cases h' : k' = k₀ <;> simp [h', getD]
    · simp only [setA, if_neg hk, getD]
      by_cases h' : k' = k₀
      · subst h'
        simp [getD, show ¬ k' = k from fun h => hk (h ▸ rfl)]
      · simp [getD, h', ih]

/-! ## C3: position clamping -/

theorem apply_answer_position_eq (today : Int) (b : Bool) (q : Nat) (ss : SessionState) :
    (apply_answer_and_move today b q ss).quiz_map_position =
      if b then min (ss.quiz_map_position + 1) ((ss.quiz_map_total_questions : Int) + 1)
      else max 0 (ss.quiz_map_position - 1) := by
  cases b <;> simp [apply_answer_and_move]

theorem apply_answer_total_questions (today : Int) (b : Bool) (q : Nat) (ss : SessionState) :
    (apply_answer_and_move today b q ss).quiz_map_total_questions =
      ss.quiz_map_total_questions := by
  cases b <;> simp [apply_answer_and_move]

theorem run_answers_bounds (today : Int) : ∀ (answers : List Bool) (ss : SessionState),
    0 ≤ ss.quiz_map_position →
    ss.quiz_map_position ≤ (ss.quiz_map_total_questions : Int) + 1 →
    (run_answers today ss answers).quiz_map_total_questions = ss.quiz_map_total_questions
    ∧ 0 ≤ (run_answers today ss answers).quiz_map_position
    ∧ (run_answers today ss answers).quiz_map_position ≤
        (ss.quiz_map_total_questions : Int) + 1 := by
  intro answers
  induction answers with
  | nil => intro ss h0 h1; exact ⟨rfl, h0, h1⟩
  | cons b rest ih =>
    intro ss h0 h1
    rw [run_answers]
    set ss' := apply_answer_and_move today b ss.quiz_map_qindex ss with hss'
    have htot : ss'.quiz_map_total_questions = ss.quiz_map_total_questions :=
      apply_answer_total_questions today b ss.quiz_map_qindex ss
    have hpos := apply_answer_position_eq today b ss.quiz_map_qindex ss
    have h0' : 0 ≤ ss'.quiz_map_position := by
      rw [← hss'] at hpos; rw [hpos]; cases b <;> (simp; try omega)
    have h1' : ss'.quiz_map_position ≤ (ss'.quiz_map_total_questions : Int) + 1 := by
      rw [← hss'] at hpos; rw [hpos, htot]; cases b <;> (simp; try omega)
    obtain ⟨ht, hl, hu⟩ := ih ss' h0' h1'
    exact ⟨by rw [ht, htot], hl, by rw [htot] at hu; exact hu⟩

/-- C3: for every quiz and every sequence of answer submissions, the
adventure position stays within `[0, total_questions + 1]`: a correct
answer moves it to `min(position+1, total+1)`, an incorrect one to
`max(position-1, 0)`, so starting anywhere in range (in particular at the
initial position 0) it never goes negative and never exceeds the finish
tile. -/
theorem quiz_position_clamp (today : Int) (ss : SessionState) (answers : List Bool)
    (h0 : 0 ≤ ss.quiz_map_position)
    (h1 : ss.quiz_map_position ≤ (ss.quiz_map_total_questions : Int) + 1) :
    (∀ b q, (apply_answer_and_move today b q ss).quiz_map_position =
      if b then min (ss.quiz_map_position + 1) ((ss.quiz_map_total_questions : Int) + 1)
      else max 0 (ss.quiz_map_position - 1))
    ∧ 0 ≤ (run_answers today ss answers).quiz_map_position
    ∧ (run_answers today ss answers).quiz_map_position ≤
        (ss.quiz_map_total_questions : Int) + 1 := by
  obtain ⟨_, hl, hu⟩ := run_answers_bounds today answers ss h0 h1
  exact ⟨fun b q => apply_answer_position_eq today b q ss, hl, hu⟩

/-! ## C6: daily streak arithmetic -/

/-- C6: `touch_daily_streak` sets the streak to 1 when there is no last
active date, increments it by exactly 1 when the last active date was
yesterday, resets it to 1 when more than one day has elapsed, leaves it
unchanged when the last active date is already today, and always stamps
`last_active_date` with today. -/
theorem touch_daily_streak_spec (today : Int) (ss : SessionState) :
    (touch_daily_streak today ss).last_active_date = some today
    ∧ (ss.last_active_date = none → (touch_daily_streak today ss).daily_streak = 1)
    ∧ (∀ l, ss.last_active_date = some l → today - l = 1 →
        (touch_daily_streak today ss).daily_streak = ss.daily_streak + 1)
    ∧ (∀ l, ss.last_active_date = some l → today - l > 1 →
        (touch_daily_streak today ss).daily_streak = 1)
    ∧ (∀ l, ss.last_active_date = some l → today - l = 0 →
        (touch_daily_streak today ss).daily_streak = ss.daily_streak) := by
  refine ⟨rfl, ?_, ?_, ?_, ?_⟩
  · intro h; simp [touch_daily_streak, h]
  · intro l h h1; simp [touch_daily_streak, h, h1]
  · intro l h h1
    simp only [touch_daily_streak, h]
    rw [if_neg (by omega), if_pos h1]
  · intro l h h1
    simp only [touch_daily_streak, h]
    rw [if_neg (by omega), if_neg (by omega)]

/-- A profile with streak 3 whose last activity was on day `d`. -/
def streakState (d : Int) : SessionState :=
  { exampleState with last_active_date := some d, daily_streak := 3 }

/-- Witness for C6 at concrete inputs: yesterday increments, three days ago
resets, today leaves unchanged, and the date is always stamped. -/
theorem touch_daily_streak_spec_witness :
    (touch_daily_streak 10 (streakState 9)).daily_streak = 3 + 1
    ∧ (touch_daily_streak 10 (streakState 7)).daily_streak = 1
    ∧ (touch_daily_streak 10 (streakState 10)).daily_streak = 3
    ∧ (touch_daily_streak 10 exampleState).last_active_date = some 10 :=
  ⟨(touch_daily_streak_spec 10 (streakState 9)).2.2.1 9 rfl (by decide),
   (touch_daily_streak_spec 10 (streakState 7)).2.2.2.1 7 rfl (by decide),
   (touch_daily_streak_spec 10 (streakState 10)).2.2.2.2 10 rfl (by decide),
   (touch_daily_streak_spec 10 exampleState).1⟩

/-! ## C8: achievement monotonicity and idempotence -/

/-- C8: achievement unlocking is monotone — every unlocked achievement stays
unlocked across an evaluation — and evaluation is idempotent: immediately
re-running `check_achievements` on the resulting state changes nothing and
reports no newly unlocked achievement (hence the XP of no achievement is ever
awarded a second time, and iterating any number of further times is also a
no-op, the re-run being the identity). -/
theorem check_achievements_monotone_idempotent (ss : SessionState) :
    (∀ t, t ∈ ss.unlocked_ach → t ∈ (check_achievements ss).1.unlocked_ach)
    ∧ check_achievements (check_achievements ss).1 = ((check_achievements ss).1, []) := by
  constructor
  · intro t ht
    exact achFold_unlocked_mono ACHIEVEMENTS (ss, []) t ht
  · unfold check_achievements
    exact achFold_noop ACHIEVEMENTS _ []
      (fun a ha hc => achFold_post ACHIEVEMENTS ACHIEVEMENTS_condStable (ss, []) a ha hc)

/-- A state in which the `Flawless` achievement is already unlocked. -/
def c8State : SessionState := { exampleState with unlocked_ach := ["Flawless"] }

/-- Witness for C8: a concretely unlocked achievement survives an
evaluation, and re-evaluation is the identity with an empty `newly` list. -/
theorem check_achievements_monotone_idempotent_witness :
    "Flawless" ∈ (check_achievements c8State).1.unlocked_ach
    ∧ check_achievements (check_achievements c8State).1 = ((check_achievements c8State).1, []) :=
  ⟨(check_achievements_monotone_idempotent c8State).1 "Flawless" (by simp [c8State, exampleState]),
   (check_achievements_monotone_idempotent c8State).2⟩

/-! ## C7: quest counter windows -/

/-- C7: `update_quests` zeroes all daily counters and stamps today before
applying the increment whenever the stored daily reset date differs from
today (and otherwise just adds to the named counter); weekly counters are
zeroed (and the window restamped) exactly when at least 7 days have elapsed
since the stored week start, and are otherwise kept; an increment keyed by
quiz completion (`"daily_quizzes"`) is mirrored into the weekly quiz
counter and, when the quiz was an 80%+ one, also bumps the weekly
high-accuracy counter by one. -/
theorem update_quests_spec (today : Int) (key : String) (inc : Nat) (hi : Bool)
    (ss : SessionState) :
    (ss.quests_daily_progress.reset_date ≠ today →
      (update_quests today key inc hi ss).quests_daily_progress.reset_date = today
      ∧ getD (update_quests today key inc hi ss).quests_daily_progress.counters
          "daily_quizzes" = (if key = "daily_quizzes" then inc else 0)
      ∧ getD (update_quests today key inc hi ss).quests_daily_progress.counters
          "daily_correct" = (if key = "daily_correct" then inc else 0))
    ∧ (ss.quests_daily_progress.reset_date = today →
      getD (update_quests today key inc hi ss).quests_daily_progress.counters key =
        getD ss.quests_daily_progress.counters key + inc)
    ∧ (∀ w, ss.quests_weekly_progress.week_start = some w → today - w < 7 →
      (update_quests today key inc hi ss).quests_weekly_progress.week_start = some w
      ∧ getD (update_quests today key inc hi ss).quests_weekly_progress.counters
          "weekly_quizzes" = getD ss.quests_weekly_progress.counters "weekly_quizzes"
            + (if key = "daily_quizzes" then inc else 0)
      ∧ getD (update_quests today key inc hi ss).quests_weekly_progress.counters
          "weekly_80plus" = getD ss.quests_weekly_progress.counters "weekly_80plus"
            + (if key = "daily_quizzes" ∧ hi = true then 1 else 0))
    ∧ (∀ w, ss.quests_weekly_progress.week_start = some w → today - w ≥ 7 →
      (update_quests today key inc hi ss).quests_weekly_progress.week_start = some today
      ∧ getD (update_quests today key inc hi ss).quests_weekly_progress.counters
          "weekly_quizzes" = (if key = "daily_quizzes" then inc else 0)
      ∧ getD (update_quests today key inc hi ss).quests_weekly_progress.counters
          "weekly_80plus" = (if key = "daily_quizzes" ∧ hi = true then 1 else 0)) := by
  refine ⟨?_, ?_, ?_, ?_⟩
  · intro hne
    refine ⟨by simp [update_quests, hne], ?_, ?_⟩
    · rw [show (update_quests today key inc hi ss).quests_daily_progress.counters =
        setA [("daily_quizzes", 0), ("daily_correct", 0)] key
          (getD [("daily_quizzes", 0), ("daily_correct", 0)] key + inc) by
          simp [update_quests, hne]]
      rw [getD_setA]
      by_cases hk : key = "daily_quizzes"
      · subst hk; simp [getD]
      · rw [if_neg (fun h => hk h.symm), if_neg hk]; decide
    · rw [show (update_quests today key inc hi ss).quests_daily_progress.counters =
        setA [("daily_quizzes", 0), ("daily_correct", 0)] key
          (getD [("daily_quizzes", 0), ("daily_correct", 0)] key + inc) by
          simp [update_quests, hne]]
      rw [getD_setA]
      by_cases hk : key = "daily_correct"
      · subst hk; simp [getD]
      · rw [if_neg (fun h => hk h.symm), if_neg hk]; decide
  · intro heq
    simp [update_quests, heq, getD_setA]
  · intro w hw hlt
    have h7 : ¬ ((7 : Int) ≤ today - w) := by omega
    by_cases hk : key = "daily_quizzes"
    · subst hk
      cases hi <;> simp [update_quests, hw, h7, getD_setA, getD]
    · simp [update_quests, hw, h7, hk]
  · intro w hw hge
    have h7 : ((7 : Int) ≤ today - w) := by omega
    by_cases hk : key = "daily_quizzes"
    · subst hk
      cases hi <;> simp [update_quests, hw, h7, getD_setA, getD]
    · simp [update_quests, hw, h7, hk, getD]

/-- Witness for C7 at concrete inputs: a stale daily window is zeroed and
restamped before the increment, a 7-day-old weekly window is zeroed with
the mirrored high-accuracy quiz increment applied, and a fresh weekly
window is preserved. -/
theorem update_quests_spec_witness :
    ((update_quests 3 "daily_quizzes" 1 true exampleState).quests_daily_progress.reset_date = 3
      ∧ getD (update_quests 3 "daily_quizzes" 1 true
          exampleState).quests_daily_progress.counters "daily_quizzes" = 1
      ∧ getD (update_quests 3 "daily_quizzes" 1 true
          exampleState).quests_daily_progress.counters "daily_correct" = 0)
    ∧ ((update_quests 9 "daily_quizzes" 1 true exampleState).quests_weekly_progress.week_start
        = some 9
      ∧ getD (update_quests 9 "daily_quizzes" 1 true
          exampleState).quests_weekly_progress.counters "weekly_quizzes" = 1
      ∧ getD (update_quests 9 "daily_quizzes" 1 true
          exampleState).quests_weekly_progress.counters "weekly_80plus" = 1)
    ∧ (update_quests 3 "daily_correct" 1 false exampleState).quests_weekly_progress.week_start
        = some 0 := by
  refine ⟨?_, ?_, ?_⟩
  · have h := (update_quests_spec 3 "daily_quizzes" 1 true exampleState).1 (by decide)
    simpa using h
  · have h := (update_quests_spec 9 "daily_quizzes" 1 true exampleState).2.2.2 0 rfl (by decide)
    simpa using h
  · exact ((update_quests_spec 3 "daily_correct" 1 false exampleState).2.2.1 0 rfl
      (by decide)).1

/-! ## C1: the 80% accuracy gate -/

/-- C1: on a finished, not-yet-settled attempt, `check_completion_gate`
computes `accuracy = 100 * correct_count / max(1, total_questions)` (stored
in `last_quiz_pct`; the guarded denominator makes a zero-question quiz safe)
and passes exactly when `accuracy ≥ 80`.  On a pass it sets the completion
flag and awards +25 XP (achievements may add more on top), +1 credit and
+5 coins, appending the history record of the attempt; on a fail it leaves the
completion flag false, awards no completion bonus, and still appends a
history record for the attempt. -/
theorem check_completion_gate_spec (today : Int) (ss : SessionState)
    (hq : ss.quiz_map_qindex ≥ ss.quiz_map_total_questions)
    (hd : ss.quiz_map_done = false) :
    (check_completion_gate today ss).2.last_quiz_pct =
      100 * (ss.quiz_map_correct : Rat) / ((max 1 ss.quiz_map_total_questions : Nat) : Rat)
    ∧ ((check_completion_gate today ss).1.1 = true ↔
        100 * (ss.quiz_map_correct : Rat) / ((max 1 ss.quiz_map_total_questions : Nat) : Rat) ≥ 80)
    ∧ (100 * (ss.quiz_map_correct : Rat) / ((max 1 ss.quiz_map_total_questions : Nat) : Rat) ≥ 80 →
        (check_completion_gate today ss).2.quiz_map_done = true
        ∧ (check_completion_gate today ss).2.game_credits = ss.game_credits + 1
        ∧ (check_completion_gate today ss).2.coins = ss.coins + 5
        ∧ ss.total_xp + 25 ≤ (check_completion_gate today ss).2.total_xp
        ∧ (check_completion_gate today ss).2.history = ss.history ++
            [⟨today, ss.subject, ss.chapter, ss.quiz_map_correct,
              ss.quiz_map_total_questions, 25 + 5 * ss.quiz_map_correct⟩])
    ∧ (¬ (100 * (ss.quiz_map_correct : Rat) / ((max 1 ss.quiz_map_total_questions : Nat) : Rat) ≥ 80) →
        (check_completion_gate today ss).2.quiz_map_done = false
        ∧ (check_completion_gate today ss).2.game_credits = ss.game_credits
        ∧ (check_completion_gate today ss).2.coins = ss.coins
        ∧ (check_completion_gate today ss).2.history = ss.history ++
            [⟨today, ss.subject, ss.chapter, ss.quiz_map_correct,
              ss.quiz_map_total_questions, 5 * ss.quiz_map_correct⟩]) := by
  simp only [check_completion_gate]
  rw [if_pos (⟨hq, hd⟩ : ss.quiz_map_qindex ≥ ss.quiz_map_total_questions ∧ ss.quiz_map_done = false)]
  by_cases h80 : 100 * (ss.quiz_map_correct : Rat) / ((max 1 ss.quiz_map_total_questions : Nat) : Rat) ≥ 80
  · rw [if_pos h80]
    refine ⟨by simp, ⟨fun _ => h80, fun _ => rfl⟩, fun _ => ⟨by simp, by simp, by simp, ?_, by simp⟩,
      fun hc => absurd h80 hc⟩
    refine le_trans ?_ (check_achievements_total_xp_le _)
    simp
  · rw [if_neg h80]
    exact ⟨by simp, ⟨fun h => absurd h (by simp), fun hc => absurd hc h80⟩, fun hc => absurd hc h80,
      fun _ => ⟨by simp [hd], by simp, by simp, by simp⟩⟩

/-- A finished attempt with 4 of 5 correct (80% exactly). -/
def gatePassState : SessionState :=
  { exampleState with
      quiz_map_total_questions := 5
      quiz_map_correct := 4
      quiz_map_qindex := 5 }

/-- A finished attempt with 3 of 5 correct (60%). -/
def gateFailState : SessionState :=
  { exampleState with
      quiz_map_total_questions := 5
      quiz_map_correct := 3
      quiz_map_qindex := 5 }

/-- Witness for C1: 4/5 correct passes the gate, completes the attempt and
awards the bonus; 3/5 correct fails the gate, keeps the attempt incomplete,
and still appends the history record. -/
theorem check_completion_gate_spec_witness :
    ((check_completion_gate 0 gatePassState).1.1 = true
      ∧ (check_completion_gate 0 gatePassState).2.quiz_map_done = true
      ∧ (check_completion_gate 0 gatePassState).2.game_credits = gatePassState.game_credits + 1
      ∧ (check_completion_gate 0 gatePassState).2.coins = gatePassState.coins + 5
      ∧ gatePassState.total_xp + 25 ≤ (check_completion_gate 0 gatePassState).2.total_xp)
    ∧ ((check_completion_gate 0 gateFailState).1.1 = false
      ∧ (check_completion_gate 0 gateFailState).2.quiz_map_done = false
      ∧ (check_completion_gate 0 gateFailState).2.history = gateFailState.history ++
          [⟨0, gateFailState.subject, gateFailState.chapter, gateFailState.quiz_map_correct,
            gateFailState.quiz_map_total_questions, 5 * gateFailState.quiz_map_correct⟩]) := by
  have hp := check_completion_gate_spec 0 gatePassState (by decide) (by decide)
  have hf := check_completion_gate_spec 0 gateFailState (by decide) (by decide)
  have h80p : 100 * (gatePassState.quiz_map_correct : Rat) /
      ((max 1 gatePassState.quiz_map_total_questions : Nat) : Rat) ≥ 80 := by
    norm_num [gatePassState, exampleState]
  have h80f : ¬ (100 * (gateFailState.quiz_map_correct : Rat) /
      ((max 1 gateFailState.quiz_map_total_questions : Nat) : Rat) ≥ 80) := by
    norm_num [gateFailState, exampleState]
  obtain ⟨hpd, hpc, hpco, hpx, _⟩ := hp.2.2.1 h80p
  obtain ⟨hfd, _, _, hfh⟩ := hf.2.2.2 h80f
  exact ⟨⟨hp.2.1.mpr h80p, hpd, hpc, hpco, hpx⟩,
    ⟨Bool.eq_false_iff.mpr (fun h => h80f (hf.2.1.mp h)), hfd, hfh⟩⟩

/-- Witness for C3: a concrete mixed answer sequence on a 5-question track
(start state in range) stays within the clamp bounds. -/
theorem quiz_position_clamp_witness :
    0 ≤ (run_answers 0 gatePassState
        [true, true, false, true, false]).quiz_map_position
    ∧ (run_answers 0 gatePassState
        [true, true, false, true, false]).quiz_map_position ≤
      (gatePassState.quiz_map_total_questions : Int) + 1 :=
  ⟨(quiz_position_clamp 0 gatePassState [true, true, false, true, false]
      (by decide) (by decide)).2.1,
   (quiz_position_clamp 0 gatePassState [true, true, false, true, false]
      (by decide) (by decide)).2.2⟩

/-! ## C9: XP monotonicity and purity of rank/level -/

theorem apply_answer_xp_mono (today : Int) (b : Bool) (q : Nat) (ss : SessionState) :
    ss.total_xp ≤ (apply_answer_and_move today b q ss).total_xp := by
  cases b <;> simp [apply_answer_and_move]

theorem touch_daily_streak_xp_eq (today : Int) (ss : SessionState) :
    (touch_daily_streak today ss).total_xp = ss.total_xp := by
  cases h : ss.last_active_date <;> (simp only [touch_daily_streak, h]; try (split_ifs <;> rfl))

theorem gate_xp_mono (today : Int) (ss : SessionState) :
    ss.total_xp ≤ (check_completion_gate today ss).2.total_xp := by
  simp only [check_completion_gate]
  split
  · split
    · refine le_trans ?_ (check_achievements_total_xp_le _)
      simp
    · refine le_trans ?_ (check_achievements_total_xp_le _)
      simp
  · exact Nat.le_refl _

theorem grant_quest_rewards_xp_mono (ids : List String) (ss : SessionState) :
    ss.total_xp ≤ (grant_quest_rewards ids ss).total_xp := by
  unfold grant_quest_rewards
  generalize DAILY_QUESTS ++ WEEKLY_QUESTS = l
  induction l generalizing ss with
  | nil => exact Nat.le_refl _
  | cons q l ih =>
    rw [List.foldl_cons]
    refine le_trans ?_ (ih _)
    split
    · exact Nat.le_add_right _ _
    · exact Nat.le_refl _

/-- C9: `total_xp` is monotonically non-decreasing under every operation of
the engine — per-question scoring, gate settlement, achievement evaluation,
quest reward granting, the Sudoku game reward, streak maintenance and quest
counter updates — and the displayed rank and level are pure functions of
`total_xp` alone (`format_rank_level` depends on no other field, computing
`compute_rank`/`compute_level` from `total_xp` on demand). -/
theorem total_xp_monotone_and_rank_pure :
    (∀ (today : Int) (b : Bool) (q : Nat) (ss : SessionState),
      ss.total_xp ≤ (apply_answer_and_move today b q ss).total_xp)
    ∧ (∀ (today : Int) (ss : SessionState),
      ss.total_xp ≤ (check_completion_gate today ss).2.total_xp)
    ∧ (∀ ss : SessionState, ss.total_xp ≤ (check_achievements ss).1.total_xp)
    ∧ (∀ (ids : List String) (ss : SessionState),
      ss.total_xp ≤ (grant_quest_rewards ids ss).total_xp)
    ∧ (∀ ss : SessionState, ss.total_xp ≤ (sudoku_win_settle ss).total_xp)
    ∧ (∀ (today : Int) (ss : SessionState),
      ss.total_xp ≤ (touch_daily_streak today ss).total_xp)
    ∧ (∀ (today : Int) (k : String) (i : Nat) (hi : Bool) (ss : SessionState),
      ss.total_xp ≤ (update_quests today k i hi ss).total_xp)
    ∧ (∀ s₁ s₂ : SessionState, s₁.total_xp = s₂.total_xp →
      format_rank_level s₁ = format_rank_level s₂) :=
  ⟨apply_answer_xp_mono, gate_xp_mono,
   check_achievements_total_xp_le, grant_quest_rewards_xp_mono,
   fun ss => Nat.le_add_right ss.total_xp 10,
   fun today ss => le_of_eq (touch_daily_streak_xp_eq today ss).symm,
   fun today k i hi ss => le_of_eq (update_quests_total_xp today k i hi ss).symm,
   fun s₁ s₂ h => by simp [format_rank_level, h]⟩

/-- Witness for C9: the purity clause applied at two concrete states that
agree on `total_xp` but differ elsewhere. -/
theorem total_xp_monotone_and_rank_pure_witness :
    format_rank_level c8State = format_rank_level exampleState :=
  total_xp_monotone_and_rank_pure.2.2.2.2.2.2.2 c8State exampleState rfl

/-! ## C2: settlement is re-run on a failed attempt -/

/-- Effects of the fail branch of `check_completion_gate`: the attempt is
recorded (one appended history entry, lifetime quiz count incremented), but
the completion flag stays false while `quiz_map_qindex`,
`quiz_map_total_questions` and `quiz_map_correct` are untouched — so the
guard of the gate is satisfied again on the very next call. -/
theorem gate_fail_effects (today : Int) (ss : SessionState)
    (hq : ss.quiz_map_qindex ≥ ss.quiz_map_total_questions)
    (hd : ss.quiz_map_done = false)
    (h80 : ¬ (100 * (ss.quiz_map_correct : Rat) /
      ((max 1 ss.quiz_map_total_questions : Nat) : Rat) ≥ 80)) :
    (check_completion_gate today ss).2.history = ss.history ++
        [⟨today, ss.subject, ss.chapter, ss.quiz_map_correct,
          ss.quiz_map_total_questions, 5 * ss.quiz_map_correct⟩]
    ∧ (check_completion_gate today ss).2.quiz_count = ss.quiz_count + 1
    ∧ (check_completion_gate today ss).2.quiz_map_done = false
    ∧ (check_completion_gate today ss).2.quiz_map_qindex = ss.quiz_map_qindex
    ∧ (check_completion_gate today ss).2.quiz_map_total_questions =
        ss.quiz_map_total_questions
    ∧ (check_completion_gate today ss).2.quiz_map_correct = ss.quiz_map_correct
    ∧ (check_completion_gate today ss).1.1 = false := by
  simp only [check_completion_gate]
  rw [if_pos (⟨hq, hd⟩ : ss.quiz_map_qindex ≥ ss.quiz_map_total_questions ∧
    ss.quiz_map_done = false), if_neg h80]
  exact ⟨by simp, by simp, by simp [hd], by simp, by simp, by simp, rfl⟩

/-- C2 fails on the code: `quiz_map_done` is set only in the pass branch,
so after a failed attempt (all questions answered, accuracy below 80%) a
second call of `check_completion_gate` re-runs the whole settlement.  At
the concrete failed attempt (5 questions, 3 correct) the first call
records one history entry and one completed quiz, and the second call —
contrary to the claim — appends a duplicate history entry and counts the
same attempt a second time. -/
theorem gate_fail_double_settlement :
    (check_completion_gate 0 gateFailState).1.1 = false
    ∧ (check_completion_gate 0 gateFailState).2.history.length = 1
    ∧ (check_completion_gate 0 gateFailState).2.quiz_count = 1
    ∧ (check_completion_gate 0
        (check_completion_gate 0 gateFailState).2).2.history.length = 2
    ∧ (check_completion_gate 0
        (check_completion_gate 0 gateFailState).2).2.quiz_count = 2 := by
  have h80 : ¬ (100 * (gateFailState.quiz_map_correct : Rat) /
      ((max 1 gateFailState.quiz_map_total_questions : Nat) : Rat) ≥ 80) := by
    norm_num [gateFailState, exampleState]
  obtain ⟨hh1, hc1, hd1, hqi1, hqt1, hqc1, hp1⟩ :=
    gate_fail_effects 0 gateFailState (by decide) (by decide) h80
  have hq1 : (check_completion_gate 0 gateFailState).2.quiz_map_qindex ≥
      (check_completion_gate 0 gateFailState).2.quiz_map_total_questions := by
    rw [hqi1, hqt1]; decide
  have h80' : ¬ (100 * ((check_completion_gate 0 gateFailState).2.quiz_map_correct : Rat) /
      ((max 1 (check_completion_gate 0 gateFailState).2.quiz_map_total_questions : Nat) : Rat)
        ≥ 80) := by
    rw [hqc1, hqt1]; exact h80
  obtain ⟨hh2, hc2, _, _, _, _, _⟩ :=
    gate_fail_effects 0 (check_completion_gate 0 gateFailState).2 hq1 hd1 h80'
  refine ⟨hp1, ?_, ?_, ?_, ?_⟩
  · rw [hh1]; simp [gateFailState, exampleState]
  · rw [hc1]; simp [gateFailState, exampleState]
  · rw [hh2, List.length_append, hh1]; simp [gateFailState, exampleState]
  · rw [hc2, hc1]; simp [gateFailState, exampleState]

/-! ## Parser claims: concrete sample inputs -/

/-- A quiz text with 3 well-formed sub-blocks and 2 malformed ones (the
third lacks its `Question:` line, the fourth its `[B]` option). -/
def c4sample : List Char :=
  ("[QUIZ START]\n[QUESTION]\nQuestion: Q1?\n[A] a1\n[B] b1\n[C] c1\n[CORRECT: B]\n[/QUESTION]\n[QUESTION]\nQuestion: Q2?\n[A] a2\n[B] b2\n[C] c2\n[CORRECT: A]\n[/QUESTION]\n[QUESTION]\n[A] a3\n[B] b3\n[C] c3\n[CORRECT: C]\n[/QUESTION]\n[QUESTION]\nQuestion: Q4?\n[A] a4\n[C] c4\n[CORRECT: A]\n[/QUESTION]\n[QUESTION]\nQuestion: Q5?\n[A] a5\n[B] b5\n[C] c5\n[CORRECT: C]\n[/QUESTION]\n[QUIZ END]").data

/-- A quiz text accepted by the strict validator: in its fifth sub-block the
`Question:` line carries only a trailing space, so the validating pattern
`^\s*Question:\s*.+` still matches (the `.+` consumes the space), but the
parser strips the captured group to the empty string and drops the block. -/
def c10sample : List Char :=
  ("[QUIZ START]\n[QUESTION]\nQuestion: Q1?\n[A] a1\n[B] b1\n[C] c1\n[CORRECT: B]\n[/QUESTION]\n[QUESTION]\nQuestion: Q2?\n[A] a2\n[B] b2\n[C] c2\n[CORRECT: A]\n[/QUESTION]\n[QUESTION]\nQuestion: Q3?\n[A] a3\n[B] b3\n[C] c3\n[CORRECT: C]\n[/QUESTION]\n[QUESTION]\nQuestion: Q4?\n[A] a4\n[B] b4\n[C] c4\n[CORRECT: A]\n[/QUESTION]\n[QUESTION]\n[A] a5\n[B] b5\n[C] c5\n[CORRECT: A]\nQuestion: \n[/QUESTION]\n[QUIZ END]").data

/-- A fully well-formed 5-question quiz text. -/
def good5sample : List Char :=
  ("[QUIZ START]\n[QUESTION]\nQuestion: Q1?\n[A] a1\n[B] b1\n[C] c1\n[CORRECT: A]\n[/QUESTION]\n[QUESTION]\nQuestion: Q2?\n[A] a2\n[B] b2\n[C] c2\n[CORRECT: A]\n[/QUESTION]\n[QUESTION]\nQuestion: Q3?\n[A] a3\n[B] b3\n[C] c3\n[CORRECT: A]\n[/QUESTION]\n[QUESTION]\nQuestion: Q4?\n[A] a4\n[B] b4\n[C] c4\n[CORRECT: A]\n[/QUESTION]\n[QUESTION]\nQuestion: Q5?\n[A] a5\n[B] b5\n[C] c5\n[CORRECT: A]\n[/QUESTION]\n[QUIZ END]").data

/-- A question sub-block with no correctness marker. -/
def c5block : List Char := ("\nQuestion: Q1?\n[A] optA\n[B] optB\n[C] optC\n").data

/-- The record the parser produces for `c5block`. -/
def c5item : QuestionItem :=
  ⟨"Q1?".data, ["optA".data, "optB".data, "optC".data], "optA".data, [], []⟩

/-- Every record `parseBlock` emits is well-formed: non-empty question,
exactly three non-empty options, and an answer equal to one of them. -/
theorem parseBlock_wellformed (qb : List Char) (r : QuestionItem)
    (h : parseBlock qb = some r) :
    r.question ≠ [] ∧ r.options.length = 3 ∧ (∀ o ∈ r.options, o ≠ [])
    ∧ r.answer ∈ r.options := by
  simp only [parseBlock] at h
  by_cases hg : questionOf qb = [] ∨ optionOf "[A]".data qb = [] ∨
      optionOf "[B]".data qb = [] ∨ optionOf "[C]".data qb = []
  · rw [if_pos hg] at h; exact absurd h (by simp)
  · rw [if_neg hg] at h
    push_neg at hg
    obtain ⟨hq, ha, hb, hc⟩ := hg
    injection h with h
    subst h
    refine ⟨hq, rfl, ?_, ?_⟩
    · intro o ho
      simp only [List.mem_cons, List.not_mem_nil, or_false] at ho
      rcases ho with rfl | rfl | rfl <;> assumption
    · split_ifs <;> simp

/-! ## C4: parser leniency -/

/-- C4: an input on which the outer-delimiter extraction fails parses to the
empty sequence without raising; within a delimited block a sub-block is
dropped exactly when its question text or one of its three options comes out
empty; and the concrete input with 3 well-formed and 2 malformed sub-blocks
yields exactly 3 records. -/
theorem parse_quiz_block_lenient :
    (∀ text : List Char,
      extractBetween "[QUIZ START]".data "[QUIZ END]".data text = none →
      parse_quiz_block text = [])
    ∧ (∀ qb : List Char, parseBlock qb = none ↔
        (questionOf qb = [] ∨ optionOf "[A]".data qb = [] ∨
          optionOf "[B]".data qb = [] ∨ optionOf "[C]".data qb = []))
    ∧ (parse_quiz_block c4sample).length = 3 := by
  refine ⟨?_, ?_, ?_⟩
  · intro text h
    by_cases ht : text = [] <;> simp [parse_quiz_block, ht, h]
  · intro qb
    simp only [parseBlock]
    by_cases hg : questionOf qb = [] ∨ optionOf "[A]".data qb = [] ∨
        optionOf "[B]".data qb = [] ∨ optionOf "[C]".data qb = [] <;>
      simp [hg]
  · set_option maxRecDepth 10000 in decide

/-- Witness for C4: a plain text without the delimiters parses to `[]`, and
a sub-block lacking its `[B]` option is dropped. -/
theorem parse_quiz_block_lenient_witness :
    parse_quiz_block "hello".data = []
    ∧ parseBlock ("\nQuestion: Q4?\n[A] a4\n[C] c4\n[CORRECT: A]\n").data = none :=
  ⟨parse_quiz_block_lenient.1 "hello".data (by set_option maxRecDepth 10000 in decide),
   (parse_quiz_block_lenient.2.1 ("\nQuestion: Q4?\n[A] a4\n[C] c4\n[CORRECT: A]\n").data).mpr
     (by set_option maxRecDepth 10000 in decide)⟩

/-! ## C5: missing correctness marker defaults to option A -/

/-- C5: when the correctness marker of a sub-block is absent or unparseable
(`searchCorrect` finds nothing), any record the parser produces for it has
its answer equal to the text of option A (the head of its options), and the
quiz tab answer-text resolution maps it to index 0. -/
theorem parse_missing_marker_defaults (qb : List Char) (r : QuestionItem)
    (hmiss : searchCorrect qb = none) (hr : parseBlock qb = some r) :
    r.options.head? = some r.answer ∧ resolve_correct_index r = 0 := by
  have hck : correctKeyOf qb = 'A' := by unfold correctKeyOf; rw [hmiss]
  simp only [parseBlock, hck] at hr
  by_cases hg : questionOf qb = [] ∨ optionOf "[A]".data qb = [] ∨
      optionOf "[B]".data qb = [] ∨ optionOf "[C]".data qb = []
  · rw [if_pos hg] at hr; exact absurd hr (by simp)
  · rw [if_neg hg] at hr
    injection hr with hr
    subst hr
    constructor
    · simp
    · simp [resolve_correct_index, List.findIdx?]

/-- Witness for C5: the concrete marker-less block yields a record whose
answer is the text of option A, resolved to index 0. -/
theorem parse_missing_marker_defaults_witness :
    c5item.options.head? = some c5item.answer ∧ resolve_correct_index c5item = 0 :=
  parse_missing_marker_defaults c5block c5item
    (by set_option maxRecDepth 10000 in decide)
    (by set_option maxRecDepth 10000 in decide)

/-! ## C10: strict validation versus lenient parsing -/

/-- Counterexample to C10: `c10sample` is accepted by the strict validator
(in its fifth sub-block the `Question:` line, bearing only a trailing space,
matches `^\s*Question:\s*.+`), yet `parse_quiz_block` strips that question
to the empty string and drops the block, returning 4 records, not 5. -/
theorem validate_accepts_but_parse_drops :
    validate_quiz_block c10sample = true
    ∧ (parse_quiz_block c10sample).length = 4
    ∧ (parse_quiz_block c10sample).length ≠ 5 := by
  set_option maxRecDepth 10000 in decide

/-- C10 (amended): for every text accepted by the strict validator, the
lenient parser returns at most 5 records (the well-formed sub-blocks),
each with non-empty question text, three non-empty option strings, and an
answer equal to one of its options. -/
theorem validate_implies_parse_wellformed (text : List Char)
    (hv : validate_quiz_block text = true) :
    (parse_quiz_block text).length ≤ 5
    ∧ ∀ r ∈ parse_quiz_block text,
        r.question ≠ [] ∧ r.options.length = 3 ∧ (∀ o ∈ r.options, o ≠ [])
        ∧ r.answer ∈ r.options := by
  unfold validate_quiz_block at hv
  split at hv
  · exact absurd hv (by simp)
  · rename_i hcond
    have hne : text ≠ [] := by
      intro h
      subst h
      simp at hcond
    split at hv
    · exact absurd hv (by simp)
    · rename_i body hex
      dsimp only at hv
      split at hv
      · exact absurd hv (by simp)
      · rename_i hlen
        have h5 : (findAllBetween "[QUESTION]".data "[/QUESTION]".data body).length = 5 :=
          not_not.mp hlen
        unfold parse_quiz_block
        rw [if_neg hne, hex]
        constructor
        · exact le_trans (List.length_filterMap_le _ _) (le_of_eq h5)
        · intro r hr
          obtain ⟨qb, _, hpb⟩ := List.mem_filterMap.mp hr
          exact parseBlock_wellformed qb r hpb

/-- Witness for the amended C10 at a fully well-formed 5-question text. -/
theorem validate_implies_parse_wellformed_witness :
    (parse_quiz_block good5sample).length ≤ 5
    ∧ ∀ r ∈ parse_quiz_block good5sample,
        r.question ≠ [] ∧ r.options.length = 3 ∧ (∀ o ∈ r.options, o ≠ [])
        ∧ r.answer ∈ r.options :=
  validate_implies_parse_wellformed good5sample
    (by set_option maxRecDepth 10000 in decide)

end Codexa
